import Mathlib

/-!
Verification of the AgroInsight multi-agent recommendation pipeline.

This file gives a shallow embedding, in Lean, of the core analysis code of
the repository:

* the regional weather simulator (agents/weather_station.py): current
  weather, N-day forecast with trend persistence and drought/flood
  injection, historical backfill, and the agricultural impact classifier;
* the soil rule engine (agents/farmer_advisor.py, analyze_soil_data);
* the market status classifier (agents/market_researcher.py,
  determine_market_status);
* the recommendation synthesis step
  (models/multi_agent_system.py, generate_farm_recommendations).

Modelling conventions:

* Python floats are modelled as exact rationals.  `round(x, 1)` is modelled
  by exact decimal rounding with ties to even, matching the Python
  semantics of rounding to one decimal place.
* The process-wide pseudo-random generator is modelled as a stream of
  rationals together with a cursor: the k-th `random.random()` call made by
  a function that starts at cursor `i` reads `stream (i + k)`, and the
  function returns the advanced cursor.  Python draws in `[0, 1)`; the
  embedding leaves draw values unconstrained, which only enlarges the set
  of behaviours quantified over.
* `datetime` values are modelled as absolute day numbers (integers); the
  calendar is abstracted as a function `monthOf` from day numbers to month
  numbers, since the claims under study do not depend on the concrete
  Gregorian mapping.  `datetime.now()` becomes an explicit `today`
  parameter.
* Logging and database writes are side effects on external collaborators
  and are not modelled.
* Python dict lookups with `.get(key, default)` on optional keys are
  modelled with `Option` fields and `Option.getD`.
* An unhandled Python exception (such as `ZeroDivisionError`) is modelled
  by returning `none` from an `Option`-valued function.
-/

/-- Rounding of a rational to the nearest integer with ties to even,
the semantics of Python `round` on an exact half. -/
def roundHalfEven (q : ℚ) : ℤ :=
  if q - ⌊q⌋ = 1 / 2 then (if 2 ∣ ⌊q⌋ then ⌊q⌋ else ⌊q⌋ + 1) else round q

/-- Python `round(x, 1)`: round to one decimal place, ties to even. -/
def round1 (q : ℚ) : ℚ :=
  (roundHalfEven (q * 10) : ℚ) / 10

/-- State of the pseudo-random generator: the seed determines the whole
stream of `random.random()` outputs; `idx` is how many draws have already
been consumed. -/
structure Rng where
  stream : ℕ → ℚ
  idx : ℕ

/-- Per-season modifiers from WeatherStation.generate_weather_patterns. -/
structure SeasonParams where
  temp_modifier : ℚ
  rainfall_modifier : ℚ
  humidity_modifier : ℚ
  deriving DecidableEq

/-- The seasons dictionary of WeatherStation.generate_weather_patterns.
Month ranges live in `getCurrentSeason`; unknown names map to the spring
entry (never reached by the code, which only looks up names produced by
`getCurrentSeason`). -/
def seasonParams : String → SeasonParams
  | "spring" => ⟨0, 1.2, 1.1⟩
  | "summer" => ⟨1.2, 0.8, 0.9⟩
  | "fall" => ⟨0, 1.0, 1.0⟩
  | "winter" => ⟨-1.2, 1.1, 1.2⟩
  | _ => ⟨0, 1.2, 1.1⟩

/-- WeatherStation.get_current_season: resolve the season of a date from
its calendar month, with spring as the fallback. -/
def getCurrentSeason (monthOf : ℤ → ℕ) (date : ℤ) : String :=
  let m := monthOf date
  if m ∈ ([3, 4, 5] : List ℕ) then "spring"
  else if m ∈ ([6, 7, 8] : List ℕ) then "summer"
  else if m ∈ ([9, 10, 11] : List ℕ) then "fall"
  else if m ∈ ([12, 1, 2] : List ℕ) then "winter"
  else "spring"

/-- Per-region climate parameters from
WeatherStation.generate_weather_patterns. -/
structure RegionParams where
  base_temp : ℚ
  temp_variation : ℚ
  base_rainfall : ℚ
  rainfall_variation : ℚ
  seasonal_factor : ℚ
  drought_probability : ℚ
  flood_probability : ℚ
  deriving DecidableEq

/-- The three configured regions. -/
inductive Region where
  | north
  | central
  | south
  deriving DecidableEq

/-- The regions dictionary of WeatherStation.generate_weather_patterns. -/
def regionParams : Region → RegionParams
  | .north => ⟨15, 8, 5, 15, 0.8, 0.05, 0.05⟩
  | .central => ⟨22, 6, 3, 10, 0.6, 0.08, 0.03⟩
  | .south => ⟨28, 5, 2, 8, 0.5, 0.12, 0.02⟩

/-- Membership test `region in self.regions` together with the dictionary
lookup `self.regions[region]` on the string key used by process_input. -/
def findRegion : String → Option RegionParams
  | "north" => some (regionParams .north)
  | "central" => some (regionParams .central)
  | "south" => some (regionParams .south)
  | _ => none

/-- Result shape of WeatherStation.generate_current_weather. -/
structure CurrentWeather where
  timestamp : ℤ
  season : String
  temperature_c : ℚ
  rainfall_mm : ℚ
  humidity_percent : ℚ
  wind_speed_kph : ℚ
  condition : String
  deriving DecidableEq

/-- One day of WeatherStation.generate_forecast output. -/
structure ForecastSample where
  date : ℤ
  day : ℕ
  season : String
  temperature_high_c : ℚ
  temperature_low_c : ℚ
  rainfall_mm : ℚ
  humidity_percent : ℚ
  wind_speed_kph : ℚ
  condition : String
  deriving DecidableEq

/-- One day of WeatherStation.generate_historical_data output. -/
structure HistSample where
  date : ℤ
  season : String
  temperature_high_c : ℚ
  temperature_low_c : ℚ
  rainfall_mm : ℚ
  humidity_percent : ℚ
  wind_speed_kph : ℚ
  condition : String
  deriving DecidableEq, Inhabited

/-- WeatherStation.generate_current_weather.  Consumes six draws. -/
def generateCurrentWeather (p : RegionParams) (monthOf : ℤ → ℕ) (today : ℤ)
    (rng : Rng) : CurrentWeather × Rng :=
  let s := rng.stream
  let i := rng.idx
  let currentSeason := getCurrentSeason monthOf today
  let sp := seasonParams currentSeason
  let tempBase := p.base_temp + sp.temp_modifier * p.seasonal_factor
  let tempVariation := p.temp_variation * (0.8 + 0.4 * s i)
  let temperature := tempBase + (s (i + 1) * 2 - 1) * tempVariation
  let rainfallBase := p.base_rainfall * sp.rainfall_modifier
  let rainfall0 := s (i + 2) * p.rainfall_variation * rainfallBase
  let rainfall := if s (i + 3) < 0.6 then rainfall0 * 0.3 else rainfall0
  let humidityBase := 60 + 20 * sp.humidity_modifier
  let humidity := humidityBase + (s (i + 4) * 20 - 10)
  let windSpeed := 5 + s (i + 5) * 15
  let condition :=
    if rainfall > p.rainfall_variation then "Heavy Rain"
    else if rainfall > p.rainfall_variation / 2 then "Light Rain"
    else if temperature > p.base_temp + p.temp_variation then "Hot"
    else if temperature < p.base_temp - p.temp_variation then "Cold"
    else "Clear"
  (⟨today, currentSeason, round1 temperature, round1 rainfall,
    round1 humidity, round1 windSpeed, condition⟩, ⟨s, i + 6⟩)

/-- The loop body of WeatherStation.generate_forecast for one forecast day.
Returns the sample, the updated temperature and rainfall trends, and the
advanced generator.  Consumes five draws on a drought day and six
otherwise (the flood roll happens only when the drought roll fails). -/
def forecastDay (p : RegionParams) (monthOf : ℤ → ℕ) (today : ℤ) (day : ℕ)
    (tempTrend rainTrend : ℚ) (rng : Rng) : ForecastSample × ℚ × ℚ × Rng :=
  let s := rng.stream
  let i := rng.idx
  let date := today + day
  let season := getCurrentSeason monthOf date
  let sp := seasonParams season
  let tempTrend2 := tempTrend * 0.5 + (s i * 2 - 1) * 0.5
  let tempBase := p.base_temp + sp.temp_modifier * p.seasonal_factor
  let tempVariation := p.temp_variation * (0.8 + 0.4 * s (i + 1))
  let temperature := tempBase + tempTrend2 * tempVariation
  let rainTrend2 := rainTrend * 0.3 + (s (i + 2) * 2 - 1) * 0.7
  let rainfallBase := p.base_rainfall * sp.rainfall_modifier
  let rainfall := max 0 (rainfallBase + rainTrend2 * p.rainfall_variation)
  let res :=
    if s (i + 3) < p.drought_probability then
      (temperature + 3, (0 : ℚ), "Drought Conditions", i + 5)
    else if s (i + 4) < p.flood_probability then
      (temperature, p.rainfall_variation * 2, "Flood Warning", i + 6)
    else
      (temperature, rainfall,
        if rainfall > p.rainfall_variation then "Heavy Rain"
        else if rainfall > p.rainfall_variation / 2 then "Light Rain"
        else if temperature > p.base_temp + p.temp_variation then "Hot"
        else if temperature < p.base_temp - p.temp_variation then "Cold"
        else "Clear", i + 6)
  let temperature2 := res.1
  let rainfall2 := res.2.1
  let condition := res.2.2.1
  let humidity := 60 + 20 * sp.humidity_modifier + rainTrend2 * 10
  let windSpeed := 5 + s (res.2.2.2 - 1) * 15
  (⟨date, day, season, round1 (temperature2 + tempVariation / 2),
    round1 (temperature2 - tempVariation / 2), round1 rainfall2,
    round1 humidity, round1 windSpeed, condition⟩,
    tempTrend2, rainTrend2, ⟨s, res.2.2.2⟩)

/-- The `for day in range(1, days + 1)` loop of
WeatherStation.generate_forecast: `n` days remain and the next day number
is `day`. -/
def forecastLoop (p : RegionParams) (monthOf : ℤ → ℕ) (today : ℤ) :
    ℕ → ℕ → ℚ → ℚ → Rng → List ForecastSample × Rng
  | 0, _, _, _, rng => ([], rng)
  | n + 1, day, tempTrend, rainTrend, rng =>
    let step := forecastDay p monthOf today day tempTrend rainTrend rng
    let rest := forecastLoop p monthOf today n (day + 1) step.2.1 step.2.2.1 step.2.2.2
    (step.1 :: rest.1, rest.2)

/-- WeatherStation.generate_forecast: draws a current-weather sample (used
only for its effect on the generator), then produces one sample per day
starting from tomorrow, threading the temperature and rainfall trends. -/
def generateForecast (p : RegionParams) (monthOf : ℤ → ℕ) (today : ℤ)
    (days : ℕ) (rng : Rng) : List ForecastSample × Rng :=
  let cw := generateCurrentWeather p monthOf today rng
  forecastLoop p monthOf today days 1 0 0 cw.2

/-- The loop body of WeatherStation.generate_historical_data for one day
(`day` counts up from 0; the date runs backward from the end date).
Consumes five draws; there is no damping roll, no trend carry-over and no
drought/flood injection. -/
def histDay (p : RegionParams) (monthOf : ℤ → ℕ) (endDate : ℤ) (day : ℕ)
    (rng : Rng) : HistSample × Rng :=
  let s := rng.stream
  let i := rng.idx
  let date := endDate - day
  let season := getCurrentSeason monthOf date
  let sp := seasonParams season
  let tempBase := p.base_temp + sp.temp_modifier * p.seasonal_factor
  let tempVariation := p.temp_variation * (0.8 + 0.4 * s i)
  let temperature := tempBase + (s (i + 1) * 2 - 1) * tempVariation
  let rainfallBase := p.base_rainfall * sp.rainfall_modifier
  let rainfall := s (i + 2) * p.rainfall_variation * rainfallBase
  let humidity := 60 + 20 * sp.humidity_modifier + (s (i + 3) * 20 - 10)
  let windSpeed := 5 + s (i + 4) * 15
  let condition :=
    if rainfall > p.rainfall_variation then "Heavy Rain"
    else if rainfall > p.rainfall_variation / 2 then "Light Rain"
    else if temperature > p.base_temp + p.temp_variation then "Hot"
    else if temperature < p.base_temp - p.temp_variation then "Cold"
    else "Clear"
  (⟨date, season, round1 (temperature + tempVariation / 2),
    round1 (temperature - tempVariation / 2), round1 rainfall,
    round1 humidity, round1 windSpeed, condition⟩, ⟨s, i + 5⟩)

/-- The `for day in range(days)` loop of generate_historical_data: `n`
days remain and the next day offset is `day`. -/
def histLoop (p : RegionParams) (monthOf : ℤ → ℕ) (endDate : ℤ) :
    ℕ → ℕ → Rng → List HistSample × Rng
  | 0, _, rng => ([], rng)
  | n + 1, day, rng =>
    let step := histDay p monthOf endDate day rng
    let rest := histLoop p monthOf endDate n (day + 1) step.2
    (step.1 :: rest.1, rest.2)

/-- WeatherStation.generate_historical_data with an explicit end date
(the Python default end date is yesterday and the default length 30). -/
def generateHistoricalData (p : RegionParams) (monthOf : ℤ → ℕ)
    (endDate : ℤ) (days : ℕ) (rng : Rng) : List HistSample × Rng :=
  histLoop p monthOf endDate days 0 rng

/-- One mitigation recommendation of
WeatherStation.assess_agricultural_impact. -/
structure ImpactRec where
  issue : String
  action : String
  sustainability_impact : ℚ
  confidence : ℚ
  deriving DecidableEq

/-- Result shape of WeatherStation.assess_agricultural_impact. -/
structure Impact where
  temperature_impact : String
  rainfall_impact : String
  overall_impact : String
  recommendations : List ImpactRec
  deriving DecidableEq

/-- WeatherStation.assess_agricultural_impact.  On an empty forecast the
Python code divides by `len(forecast) = 0` and raises ZeroDivisionError,
modelled as `none`.  The current-weather argument is accepted but, as in
the source, never read. -/
def assessAgriculturalImpact (monthOf : ℤ → ℕ) (today : ℤ)
    (_currentWeather : CurrentWeather) (forecast : List ForecastSample) :
    Option Impact :=
  if forecast.isEmpty then none
  else
    let avgTemp := (forecast.map (·.temperature_high_c)).sum / (forecast.length : ℚ)
    let avgRainfall := (forecast.map (·.rainfall_mm)).sum
    let tempPart : String × List ImpactRec :=
      if avgTemp > 30 then
        ("negative", [⟨"High temperatures forecasted",
          "Implement shade structures and increase irrigation frequency", 1.8, 0.8⟩])
      else if avgTemp < 10 then
        ("negative", [⟨"Low temperatures forecasted",
          "Consider using crop covers or delaying planting", 1.5, 0.8⟩])
      else if 15 ≤ avgTemp ∧ avgTemp ≤ 28 then ("positive", [])
      else ("neutral", [])
    let rainPart : String × List ImpactRec :=
      if avgRainfall < 10 then
        ("negative", [⟨"Low rainfall forecasted",
          "Implement water conservation techniques and drip irrigation", 2.2, 0.85⟩])
      else if avgRainfall > 100 then
        ("negative", [⟨"High rainfall forecasted",
          "Ensure proper drainage and consider delayed planting", 1.7, 0.8⟩])
      else if 20 ≤ avgRainfall ∧ avgRainfall ≤ 60 then ("positive", [])
      else ("neutral", [])
    let extremeRecs : List ImpactRec := forecast.filterMap fun d =>
      if d.condition = "Drought Conditions" then
        some ⟨"Drought conditions forecasted on " ++ toString d.date,
          "Implement emergency water conservation measures and consider drought-resistant crops",
          2.5, 0.7⟩
      else if d.condition = "Flood Warning" then
        some ⟨"Flood warning for " ++ toString d.date,
          "Prepare flood defenses and ensure drainage systems are clear", 2.0, 0.7⟩
      else none
    let currentSeason := getCurrentSeason monthOf today
    let seasonalRecs : List ImpactRec :=
      if currentSeason = "spring" then
        [⟨"Spring planting considerations",
          "Ensure soil has proper temperature and moisture before planting to optimize germination",
          1.5, 0.9⟩]
      else if currentSeason = "summer" then
        [⟨"Summer heat management",
          "Monitor soil moisture levels closely and implement shading or mulching to reduce evaporation",
          1.8, 0.85⟩]
      else if currentSeason = "fall" then
        [⟨"Fall harvest timing",
          "Monitor forecasts for early frost and plan harvest accordingly", 1.6, 0.8⟩]
      else if currentSeason = "winter" then
        [⟨"Winter soil management",
          "Consider cover crops to protect soil from erosion and improve structure", 2.0, 0.85⟩]
      else []
    let overall :=
      if tempPart.1 = "negative" ∨ rainPart.1 = "negative" then "negative"
      else if tempPart.1 = "positive" ∧ rainPart.1 = "positive" then "positive"
      else "neutral"
    some ⟨tempPart.1, rainPart.1, overall,
      tempPart.2 ++ rainPart.2 ++ extremeRecs ++ seasonalRecs⟩

/-- Successful payload of WeatherStation.process_input. -/
structure WeatherResult where
  region : String
  current_weather : CurrentWeather
  forecast : List ForecastSample
  historical_data : Option (List HistSample)
  agricultural_impact : Impact
  deriving DecidableEq

/-- A returned dictionary of WeatherStation.process_input: either an
error-status dictionary or a success-status dictionary. -/
inductive WeatherQueryOutcome where
  | error (message : String)
  | success (result : WeatherResult)
  deriving DecidableEq

/-- WeatherStation.process_input (with the specific-date branch, which
only reparses an externally supplied date string, elided): validate the
region, then generate current weather, the forecast, optional 30-day
historical data and the agricultural impact.  `none` models the query
dying with an unhandled exception. -/
def processInput (monthOf : ℤ → ℕ) (today : ℤ) (region : String)
    (forecastDays : ℕ) (includeHistorical : Bool) (rng : Rng) :
    Option WeatherQueryOutcome :=
  match findRegion region with
  | none => some (.error ("Unknown region: " ++ region))
  | some p =>
    let cw := generateCurrentWeather p monthOf today rng
    let fc := generateForecast p monthOf today forecastDays cw.2
    let hist := if includeHistorical then
        some (generateHistoricalData p monthOf (today - 1) 30 fc.2).1
      else none
    match assessAgriculturalImpact monthOf today cw.1 fc.1 with
    | none => none
    | some impact => some (.success ⟨region, cw.1, fc.1, hist, impact⟩)

/-- One recommendation of FarmerAdvisor.analyze_soil_data. -/
structure SoilRec where
  issue : String
  action : String
  sustainability_impact : ℚ
  cost_impact : ℚ
  deriving DecidableEq

/-- Result shape of FarmerAdvisor.analyze_soil_data; a status is `none`
when the corresponding measurement was absent and the branch that sets the
key never ran. -/
structure SoilAnalysis where
  soil_ph : Option ℚ
  soil_moisture : Option ℚ
  ph_status : Option String
  moisture_status : Option String
  recommendations : List SoilRec
  deriving DecidableEq

/-- FarmerAdvisor.analyze_soil_data. -/
def analyzeSoilData (soil_ph soil_moisture : Option ℚ) : SoilAnalysis :=
  let phPart : Option String × List SoilRec :=
    match soil_ph with
    | none => (none, [])
    | some ph =>
      if ph < 5.5 then
        (some "acidic", [⟨"Low soil pH (acidic)",
          "Apply agricultural lime to raise pH", 1.5, -0.8⟩])
      else if ph > 7.5 then
        (some "alkaline", [⟨"High soil pH (alkaline)",
          "Apply organic matter or elemental sulfur to lower pH", 1.2, -0.5⟩])
      else (some "optimal", [])
  let moisturePart : Option String × List SoilRec :=
    match soil_moisture with
    | none => (none, [])
    | some m =>
      if m < 20 then
        (some "dry", [⟨"Low soil moisture",
          "Implement drip irrigation system and mulching to conserve water", 2.0, -1.2⟩])
      else if m > 40 then
        (some "wet", [⟨"High soil moisture",
          "Improve drainage and consider raised beds", 1.0, -0.9⟩])
      else (some "optimal", [])
  ⟨soil_ph, soil_moisture, phPart.1, moisturePart.1, phPart.2 ++ moisturePart.2⟩

/-- MarketResearcher.determine_market_status.  In Python, when the supply
is not positive the ratio is `float('inf')` and the first comparison
`inf > 1.2` is true, so the result is "undersupplied". -/
def determineMarketStatus (demand supply : ℚ) : String :=
  if supply > 0 then
    if demand / supply > 1.2 then "undersupplied"
    else if demand / supply < 0.8 then "oversupplied"
    else "balanced"
  else "undersupplied"

/-- A recommendation dictionary as consumed by the synthesis step
(models/multi_agent_system.py, extract_recs).  The agents attach further
keys (crop, resource, practice, issue) that extract_recs never reads;
`Option` fields model keys that some agents omit, read via `.get` with a
default. -/
structure RecItem where
  focus : Option String
  action : String
  sustainability_impact : Option ℚ
  economic_impact : Option ℚ
  confidence : Option ℚ
  deriving DecidableEq

/-- One recommendation group as returned by each agent's
generate_recommendations: a category, an explanation and a list of
recommendation dictionaries. -/
structure RecGroup where
  category : String
  explanation : String
  recommendations : List RecItem
  deriving DecidableEq

/-- A scored entry of the high_priority list built by
SustainableFarmingSystem.generate_farm_recommendations. -/
structure ScoredRec where
  category : String
  focus : String
  action : String
  sustainability_impact : ℚ
  economic_impact : ℚ
  confidence : ℚ
  score : ℚ
  deriving DecidableEq

/-- The body of extract_recs for one recommendation dictionary: read the
impact fields with their defaults and compute
`score = (sustainability * w_s + economic * w_e) * confidence * weight`
with `w_s = preference / 10` and `w_e = 1 - w_s`. -/
def scoreRec (pref : ℚ) (category : String) (weight : ℚ) (rec : RecItem) :
    ScoredRec :=
  let sustainability := rec.sustainability_impact.getD 0
  let economic := rec.economic_impact.getD 0
  let confidence := rec.confidence.getD 0.5
  let sustainabilityWeight := pref / 10
  let economicWeight := 1 - sustainabilityWeight
  ⟨category, rec.focus.getD "", rec.action, sustainability, economic,
    confidence,
    (sustainability * sustainabilityWeight + economic * economicWeight) *
      confidence * weight⟩

/-- extract_recs: walk the groups of one agent in emission order and score
every recommendation. -/
def extractRecs (pref : ℚ) (category : String) (source : List RecGroup)
    (weight : ℚ) : List ScoredRec :=
  source.flatMap fun g => g.recommendations.map (scoreRec pref category weight)

/-- The full high_priority list before sorting: the three extract_recs
calls of generate_farm_recommendations, with source weights 1.0 / 0.9 /
0.8. -/
def scoredItems (farming market weather : List RecGroup) (pref : ℚ) :
    List ScoredRec :=
  extractRecs pref "Farming Practices" farming 1.0 ++
    extractRecs pref "Market Strategy" market 0.9 ++
      extractRecs pref "Weather Management" weather 0.8

/-- The comparison of `high_priority.sort(key=lambda x: x["score"],
reverse=True)`: Python list.sort is a stable sort, rendered here as
insertion sort with this relation, which is stable in the same sense
(an element is inserted before the later-emitted elements of equal
score). -/
def scoreDescRel (a b : ScoredRec) : Prop :=
  b.score ≤ a.score

instance : DecidableRel scoreDescRel :=
  fun a b => inferInstanceAs (Decidable (b.score ≤ a.score))

/-- The sustainability_summary dictionary of
generate_farm_recommendations. -/
structure SustainabilitySummary where
  current_score : ℚ
  potential_score : ℚ
  improvement_percentage : ℚ
  deriving DecidableEq

/-- The parts of the generate_farm_recommendations result that the
synthesis step itself computes. -/
structure FarmRecOutput where
  high_priority_actions : List ScoredRec
  sustainability_summary : SustainabilitySummary
  deriving DecidableEq

/-- The aggregation tail of
SustainableFarmingSystem.generate_farm_recommendations, as a function of
the parcel's current sustainability score, the three agents' emitted
recommendation groups and the sustainability preference: sort the scored
items descending by score (stable), keep the top 5, and derive the
sustainability summary from the top 5's sustainability impacts. -/
def generateFarmRecommendations (currentScore : ℚ)
    (farming market weather : List RecGroup) (pref : ℚ) : FarmRecOutput :=
  let highPriority :=
    List.insertionSort scoreDescRel (scoredItems farming market weather pref)
  let top5 := highPriority.take 5
  let potentialImprovement := (top5.map (·.sustainability_impact)).sum * 0.2
  ⟨top5,
    ⟨currentScore, min 100 (currentScore + potentialImprovement),
      if currentScore > 0 then potentialImprovement / currentScore * 100
      else 0⟩⟩

/-- Spec-side formulation of the fixed condition threshold ladder
(spec section 4.1): rainfall above the rainfall-variation amplitude gives
Heavy Rain, above half of it Light Rain, otherwise temperature above
base plus variation gives Hot, below base minus variation Cold, and Clear
otherwise. -/
def conditionLadder (p : RegionParams) (temperature rainfall : ℚ) : String :=
  if rainfall > p.rainfall_variation then "Heavy Rain"
  else if rainfall > p.rainfall_variation / 2 then "Light Rain"
  else if temperature > p.base_temp + p.temp_variation then "Hot"
  else if temperature < p.base_temp - p.temp_variation then "Cold"
  else "Clear"

/-- Spec-side source weight per synthesis category (spec section 4.5):
farming 1.0, market 0.9, weather 0.8. -/
def sourceWeight : String → ℚ
  | "Farming Practices" => 1.0
  | "Market Strategy" => 0.9
  | "Weather Management" => 0.8
  | _ => 0

/-- Attach emission positions, counting from `n`, to state stability of
the ranking. -/
def withIdx : List α → ℕ → List (α × ℕ)
  | [], _ => []
  | a :: l, n => (a, n) :: withIdx l (n + 1)

/-- Spec-side ranking order on position-tagged scored items: strictly
higher score first, ties broken by earlier emission position. -/
def rankRel (a b : ScoredRec × ℕ) : Prop :=
  b.1.score < a.1.score ∨ (a.1.score = b.1.score ∧ a.2 ≤ b.2)

instance : DecidableRel rankRel := fun a b =>
  inferInstanceAs (Decidable (_ ∨ _))

instance : IsTotal (ScoredRec × ℕ) rankRel where
  total a b := by
    unfold rankRel
    rcases lt_trichotomy a.1.score b.1.score with h | h | h
    · exact Or.inr (Or.inl h)
    · rcases Nat.le_total a.2 b.2 with h2 | h2
      · exact Or.inl (Or.inr ⟨h, h2⟩)
      · exact Or.inr (Or.inr ⟨h.symm, h2⟩)
    · exact Or.inl (Or.inl h)

instance : IsTrans (ScoredRec × ℕ) rankRel where
  trans a b c hab hbc := by
    unfold rankRel at hab hbc ⊢
    rcases hab with h1 | ⟨h1, h1i⟩ <;> rcases hbc with h2 | ⟨h2, h2i⟩
    · exact Or.inl (h2.trans h1)
    · exact Or.inl (h2 ▸ h1)
    · exact Or.inl (h1 ▸ h2)
    · exact Or.inr ⟨h1.trans h2, h1i.trans h2i⟩

/-- Spec-side order on market statuses, increasing from oversupplied
towards undersupplied; monotonicity of the classifier is stated against
this order. -/
def statusRank : String → ℕ
  | "oversupplied" => 0
  | "balanced" => 1
  | "undersupplied" => 2
  | _ => 3

/-- C7: for every parcel with soil pH strictly between 5.5 and 7.5 and
soil moisture between 20 and 40 inclusive, analyze_soil_data reports
ph_status "optimal" and moisture_status "optimal" and contributes zero
soil recommendations. -/
theorem optimal_soil_no_soil_recommendations (ph m : ℚ)
    (hph1 : 5.5 < ph) (hph2 : ph < 7.5) (hm1 : 20 ≤ m) (hm2 : m ≤ 40) :
    (analyzeSoilData (some ph) (some m)).ph_status = some "optimal" ∧
      (analyzeSoilData (some ph) (some m)).moisture_status = some "optimal" ∧
      (analyzeSoilData (some ph) (some m)).recommendations = [] := by
  have h1 : ¬ ph < 5.5 := not_lt.mpr hph1.le
  have h2 : ¬ ph > 7.5 := not_lt.mpr hph2.le
  have h3 : ¬ m < 20 := not_lt.mpr hm1
  have h4 : ¬ m > 40 := not_lt.mpr hm2
  refine ⟨?_, ?_, ?_⟩ <;> simp [analyzeSoilData, h1, h2, h3, h4]

/-- Witness for C7 at the concrete measurements pH 6.7, moisture 28.5. -/
theorem optimal_soil_no_soil_recommendations_witness :
    ((5.5 : ℚ) < 6.7 ∧ (6.7 : ℚ) < 7.5 ∧ (20 : ℚ) ≤ 28.5 ∧ (28.5 : ℚ) ≤ 40) ∧
      ((analyzeSoilData (some 6.7) (some 28.5)).ph_status = some "optimal" ∧
        (analyzeSoilData (some 6.7) (some 28.5)).moisture_status = some "optimal" ∧
        (analyzeSoilData (some 6.7) (some 28.5)).recommendations = []) :=
  ⟨⟨by norm_num, by norm_num, by norm_num, by norm_num⟩,
    optimal_soil_no_soil_recommendations 6.7 28.5 (by norm_num) (by norm_num)
      (by norm_num) (by norm_num)⟩

/-- C8: the market-status classification is monotonic in demand at every
fixed positive supply (the status never moves from undersupplied towards
oversupplied as demand grows); for positive supply the status is
determined by the demand/supply ratio against the 1.2 and 0.8 thresholds,
and non-positive supply is classified undersupplied. -/
theorem market_status_monotone_in_demand (d1 d2 s t : ℚ)
    (hs : 0 < s) (hd : d1 ≤ d2) (ht : t ≤ 0) :
    statusRank (determineMarketStatus d1 s) ≤
        statusRank (determineMarketStatus d2 s) ∧
      (determineMarketStatus d1 s = "undersupplied" ↔ 1.2 < d1 / s) ∧
      (determineMarketStatus d1 s = "oversupplied" ↔ d1 / s < 0.8) ∧
      (determineMarketStatus d1 s = "balanced" ↔
        0.8 ≤ d1 / s ∧ d1 / s ≤ 1.2) ∧
      determineMarketStatus d1 t = "undersupplied" := by
  have hq : d1 / s ≤ d2 / s := by gcongr
  have hts : ¬ t > 0 := not_lt.mpr ht
  refine ⟨?_, ?_, ?_, ?_, ?_⟩
  · unfold determineMarketStatus
    rw [if_pos hs, if_pos hs]
    split_ifs <;> first | decide | (exfalso; linarith)
  · unfold determineMarketStatus
    rw [if_pos hs]
    split_ifs with h1 h2 <;> simp_all
  · unfold determineMarketStatus
    rw [if_pos hs]
    split_ifs with h1 h2 <;> simp_all <;> linarith
  · unfold determineMarketStatus
    rw [if_pos hs]
    split_ifs with h1 h2 <;> simp_all [not_lt] <;> linarith
  · unfold determineMarketStatus
    rw [if_neg hts]

/-- C6: on a forecast day the condition is forced to Drought Conditions
when the drought roll triggers, else to Flood Warning when the flood roll
triggers, and otherwise is exactly the fixed threshold ladder applied to
the day's (pre-override) trend temperature and rainfall. -/
theorem forecast_condition_drought_flood_or_ladder (p : RegionParams)
    (monthOf : ℤ → ℕ) (today : ℤ) (day : ℕ) (tempTrend rainTrend : ℚ)
    (rng : Rng) :
    (forecastDay p monthOf today day tempTrend rainTrend rng).1.condition =
      (let s := rng.stream
      let i := rng.idx
      let sp := seasonParams (getCurrentSeason monthOf (today + day))
      let tempTrend2 := tempTrend * 0.5 + (s i * 2 - 1) * 0.5
      let temperature := p.base_temp + sp.temp_modifier * p.seasonal_factor +
        tempTrend2 * (p.temp_variation * (0.8 + 0.4 * s (i + 1)))
      let rainTrend2 := rainTrend * 0.3 + (s (i + 2) * 2 - 1) * 0.7
      let rainfall := max 0 (p.base_rainfall * sp.rainfall_modifier +
        rainTrend2 * p.rainfall_variation)
      if s (i + 3) < p.drought_probability then "Drought Conditions"
      else if s (i + 4) < p.flood_probability then "Flood Warning"
      else conditionLadder p temperature rainfall) := by
  dsimp only [forecastDay, conditionLadder]
  split_ifs <;> rfl

/-- The condition of a historical day is computed by the plain threshold
ladder, with no extreme-event injection. -/
theorem histDay_condition_mem (p : RegionParams) (monthOf : ℤ → ℕ)
    (endDate : ℤ) (day : ℕ) (rng : Rng) :
    (histDay p monthOf endDate day rng).1.condition ∈
      (["Heavy Rain", "Light Rain", "Hot", "Cold", "Clear"] : List String) := by
  dsimp only [histDay]
  split_ifs <;> simp

/-- Every sample of the historical loop carries a base condition tag. -/
theorem histLoop_condition_mem (p : RegionParams) (monthOf : ℤ → ℕ)
    (endDate : ℤ) :
    ∀ (n day : ℕ) (rng : Rng),
      ∀ smp ∈ (histLoop p monthOf endDate n day rng).1,
        smp.condition ∈
          (["Heavy Rain", "Light Rain", "Hot", "Cold", "Clear"] : List String) := by
  intro n
  induction n with
  | zero => intro day rng smp h; simp [histLoop] at h
  | succ m ih =>
    intro day rng smp h
    rw [histLoop, List.mem_cons] at h
    rcases h with h | h
    · exact h ▸ histDay_condition_mem p monthOf endDate day rng
    · exact ih (day + 1) _ smp h

/-- C10: every sample produced by historical backfill generation carries a
condition tag from the base five-element set; Drought Conditions and
Flood Warning never appear in historical data. -/
theorem historical_condition_in_base_set (p : RegionParams)
    (monthOf : ℤ → ℕ) (endDate : ℤ) (days : ℕ) (rng : Rng) :
    ∀ smp ∈ (generateHistoricalData p monthOf endDate days rng).1,
      smp.condition ∈
        (["Heavy Rain", "Light Rain", "Hot", "Cold", "Clear"] : List String) :=
  histLoop_condition_mem p monthOf endDate days 0 rng

/-- Concrete first sample of a one-day historical generation, used as the
witness input for the historical-condition claim. -/
def histListW : List HistSample :=
  (generateHistoricalData (regionParams .north) (fun _ => 1) 0 1
    ⟨fun _ => 0.5, 0⟩).1

/-- Witness for C10 at a concrete historical sample. -/
theorem historical_condition_in_base_set_witness :
    histListW.head! ∈ histListW ∧
      histListW.head!.condition ∈
        (["Heavy Rain", "Light Rain", "Hot", "Cold", "Clear"] : List String) := by
  have hne : histListW ≠ [] := by
    simp [histListW, generateHistoricalData, histLoop]
  have hmem : histListW.head! ∈ histListW := List.head!_mem_self hne
  exact ⟨hmem,
    historical_condition_in_base_set (regionParams .north) (fun _ => 1) 0 1
      ⟨fun _ => 0.5, 0⟩ histListW.head! hmem⟩

/-- The forecast loop starting at day number `day` with `n` days to go
emits dates `today + day, …, today + day + n - 1` in order. -/
theorem forecastLoop_dates (p : RegionParams) (monthOf : ℤ → ℕ)
    (today : ℤ) :
    ∀ (n day : ℕ) (tempTrend rainTrend : ℚ) (rng : Rng),
      ((forecastLoop p monthOf today n day tempTrend rainTrend rng).1).map
          (·.date) =
        (List.range n).map (fun k => today + ((day + k : ℕ) : ℤ)) := by
  intro n
  induction n with
  | zero => intro day tempTrend rainTrend rng; simp [forecastLoop]
  | succ m ih =>
    intro day tempTrend rainTrend rng
    rw [forecastLoop, List.range_succ_eq_map]
    simp only [List.map_cons, List.map_map]
    refine congrArg₂ _ ?_ ?_
    · simp [forecastDay]
    · rw [ih]
      congr 1
      funext k
      simp only [Function.comp_apply]
      push_cast
      ring

/-- C2: for every configured region and every positive day count, the
forecast returns exactly `days` samples whose dates are
`today + 1, …, today + days`, strictly ascending day by day starting from
tomorrow. -/
theorem forecast_length_and_ascending_dates (region : Region)
    (monthOf : ℤ → ℕ) (today : ℤ) (days : ℕ) (rng : Rng) (h : 0 < days) :
    ((generateForecast (regionParams region) monthOf today days rng).1).length
        = days ∧
      ((generateForecast (regionParams region) monthOf today days rng).1).map
          (·.date) =
        (List.range days).map (fun k : ℕ => today + (k : ℤ) + 1) := by
  have hd : ((generateForecast (regionParams region) monthOf today days
      rng).1).map (·.date) =
      (List.range days).map (fun k : ℕ => today + (k : ℤ) + 1) := by
    unfold generateForecast
    rw [forecastLoop_dates]
    congr 1
    funext k
    push_cast
    ring
  refine ⟨?_, hd⟩
  have := congrArg List.length hd
  simpa using this

/-- Witness for C2: a three-day forecast for the south region. -/
theorem forecast_length_and_ascending_dates_witness :
    0 < 3 ∧
      (((generateForecast (regionParams .south) (fun _ => 7) 10 3
            ⟨fun _ => 0.5, 0⟩).1).length = 3 ∧
        ((generateForecast (regionParams .south) (fun _ => 7) 10 3
            ⟨fun _ => 0.5, 0⟩).1).map (·.date) =
          (List.range 3).map (fun k : ℕ => 10 + (k : ℤ) + 1)) :=
  ⟨by decide,
    forecast_length_and_ascending_dates .south (fun _ => 7) 10 3
      ⟨fun _ => 0.5, 0⟩ (by decide)⟩

/-- C9 (code behaviour at the failing input): applying the agricultural
impact classifier to an empty weather-sample sequence does not return an
"unknown" impact with an empty recommendation list; the Python code
divides by the length of the sequence and dies with ZeroDivisionError,
modelled as `none`. -/
theorem impact_classifier_empty_input_crashes (monthOf : ℤ → ℕ)
    (today : ℤ) (currentWeather : CurrentWeather) :
    assessAgriculturalImpact monthOf today currentWeather [] = none := rfl

/-- The agricultural impact classifier is a total pure function on every
non-empty forecast: it always returns a result. -/
theorem impact_classifier_total_on_nonempty (monthOf : ℤ → ℕ) (today : ℤ)
    (currentWeather : CurrentWeather) (forecast : List ForecastSample)
    (h : forecast ≠ []) :
    (assessAgriculturalImpact monthOf today currentWeather forecast).isSome := by
  unfold assessAgriculturalImpact
  rw [if_neg (by simpa using h)]
  rfl

/-- C4 (code behaviour at the failing input): a weather query for an
unconfigured region returns an error-status dictionary before any sample
is generated, but a weather query with zero forecast days returns no
InvalidRange error at all: the forecast is empty and the query dies in
the impact assessment with ZeroDivisionError, modelled as `none`. -/
theorem weather_query_unknown_region_and_zero_days :
    processInput (fun _ => 1) 0 "Atlantis" 7 false ⟨fun _ => 0.5, 0⟩ =
        some (.error "Unknown region: Atlantis") ∧
      processInput (fun _ => 1) 0 "central" 0 false ⟨fun _ => 0.5, 0⟩ =
        none := by
  constructor
  · rfl
  · rfl

/-- Every emission position recorded by `withIdx` from `n` is at least
`n`. -/
theorem withIdx_le_idx :
    ∀ (l : List ScoredRec) (n : ℕ), ∀ p ∈ withIdx l n, n ≤ p.2 := by
  intro l
  induction l with
  | nil => intro n p hp; simp [withIdx] at hp
  | cons a t ih =>
    intro n p hp
    rw [withIdx, List.mem_cons] at hp
    rcases hp with rfl | hp
    · exact le_refl n
    · exact (Nat.le_succ n).trans (ih (n + 1) p hp)

/-- Inserting an element whose emission position is below every position
in the list commutes with forgetting positions: ranking by
(score descending, position ascending) inserts it exactly where the
stable score-descending sort does. -/
theorem map_fst_orderedInsert (a : ScoredRec × ℕ) :
    ∀ L : List (ScoredRec × ℕ), (∀ q ∈ L, a.2 < q.2) →
      (List.orderedInsert rankRel a L).map Prod.fst =
        List.orderedInsert scoreDescRel a.1 (L.map Prod.fst) := by
  intro L
  induction L with
  | nil => intro _; rfl
  | cons b t ih =>
    intro h
    have hb : a.2 < b.2 := h b (List.mem_cons_self b t)
    by_cases hr : rankRel a b
    · have hr2 : scoreDescRel a.1 b.1 := by
        rcases hr with h1 | ⟨h1, _⟩
        · exact le_of_lt h1
        · exact le_of_eq h1.symm
      simp only [List.orderedInsert]
      rw [if_pos hr, if_pos hr2]
      simp
    · have hr2 : ¬ scoreDescRel a.1 b.1 := by
        intro hle
        apply hr
        rcases lt_or_eq_of_le hle with h1 | h1
        · exact Or.inl h1
        · exact Or.inr ⟨h1.symm, le_of_lt hb⟩
      simp only [List.orderedInsert]
      rw [if_neg hr, if_neg hr2]
      simp only [List.map_cons]
      rw [ih fun q hq => h q (List.mem_cons_of_mem b hq)]

/-- Sorting the position-tagged emission list by (score descending,
position ascending) and then forgetting positions gives exactly the
code's stable score-descending sort. -/
theorem map_fst_insertionSort_rankRel :
    ∀ (l : List ScoredRec) (n : ℕ),
      (List.insertionSort rankRel (withIdx l n)).map Prod.fst =
        List.insertionSort scoreDescRel l := by
  intro l
  induction l with
  | nil => intro n; rfl
  | cons a t ih =>
    intro n
    rw [withIdx, List.insertionSort, List.insertionSort]
    rw [map_fst_orderedInsert (a, n) _ ?_, ih (n + 1)]
    intro q hq
    have hq2 : q ∈ withIdx t (n + 1) :=
      (List.perm_insertionSort rankRel (withIdx t (n + 1))).mem_iff.mp hq
    exact Nat.lt_of_succ_le (withIdx_le_idx t (n + 1) q hq2)

/-- Each item scored by extract_recs carries the category it was emitted
under and the score formula with that category's source weight. -/
theorem mem_extractRecs_score {pref : ℚ} {cat : String} {w : ℚ}
    {gs : List RecGroup} {r : ScoredRec} (h : r ∈ extractRecs pref cat gs w) :
    r.category = cat ∧
      r.score = (r.sustainability_impact * (pref / 10) +
          r.economic_impact * (1 - pref / 10)) * r.confidence * w := by
  unfold extractRecs at h
  rw [List.mem_flatMap] at h
  obtain ⟨g, _, hg⟩ := h
  rw [List.mem_map] at hg
  obtain ⟨rec, _, rfl⟩ := hg
  exact ⟨rfl, rfl⟩

/-- C1: the synthesis engine scores every item gathered from the three
agents as
score = (sustainability_impact * w_s + economic_impact * w_e) * confidence
* sourceWeight with w_s = preference / 10, w_e = 1 - w_s, and source
weights 1.0 / 0.9 / 0.8 for farming / market / weather; and the returned
high-priority actions are the first five of the emission list ranked by
descending score with ties broken by original emission order (the stable
sort of the source), the ranking being a permutation of the tagged
emission list sorted by the rank order. -/
theorem synthesis_scoring_and_stable_top5
    (farming market weather : List RecGroup) (currentScore pref : ℚ)
    (h1 : 1 ≤ pref) (h2 : pref ≤ 10) :
    (∀ r ∈ scoredItems farming market weather pref,
        r.score = (r.sustainability_impact * (pref / 10) +
            r.economic_impact * (1 - pref / 10)) * r.confidence *
          sourceWeight r.category) ∧
      (generateFarmRecommendations currentScore farming market weather
          pref).high_priority_actions =
        ((List.insertionSort rankRel
            (withIdx (scoredItems farming market weather pref) 0)).take
          5).map Prod.fst ∧
      List.Sorted rankRel
        (List.insertionSort rankRel
          (withIdx (scoredItems farming market weather pref) 0)) ∧
      List.Perm
        (List.insertionSort rankRel
          (withIdx (scoredItems farming market weather pref) 0))
        (withIdx (scoredItems farming market weather pref) 0) := by
  refine ⟨?_, ?_, List.sorted_insertionSort rankRel _,
    List.perm_insertionSort rankRel _⟩
  · intro r hr
    unfold scoredItems at hr
    rw [List.mem_append, List.mem_append] at hr
    rcases hr with (hr | hr) | hr
    · obtain ⟨hc, hs⟩ := mem_extractRecs_score hr
      rw [hc, show sourceWeight "Farming Practices" = 1.0 from rfl]
      exact hs
    · obtain ⟨hc, hs⟩ := mem_extractRecs_score hr
      rw [hc, show sourceWeight "Market Strategy" = 0.9 from rfl]
      exact hs
    · obtain ⟨hc, hs⟩ := mem_extractRecs_score hr
      rw [hc, show sourceWeight "Weather Management" = 0.8 from rfl]
      exact hs
  · show (List.insertionSort scoreDescRel
        (scoredItems farming market weather pref)).take 5 = _
    rw [List.map_take, map_fst_insertionSort_rankRel]

/-- Witness for C1 at a concrete emission set and preference 5. -/
theorem synthesis_scoring_and_stable_top5_witness :
    ((1 : ℚ) ≤ 5 ∧ (5 : ℚ) ≤ 10) ∧
      ((∀ r ∈ scoredItems
            [⟨"Crop Selection", "e", [⟨some "f1", "a1", some 2, some 1,
              some 0.8⟩]⟩]
            [⟨"Market Opportunities", "e", [⟨some "f2", "a2", none, some 2,
              some 0.8⟩]⟩]
            [⟨"Water Management", "e", [⟨some "f3", "a3", some 2, none,
              some 0.9⟩]⟩] 5,
          r.score = (r.sustainability_impact * ((5 : ℚ) / 10) +
              r.economic_impact * (1 - (5 : ℚ) / 10)) * r.confidence *
            sourceWeight r.category) ∧
        (generateFarmRecommendations 45
            [⟨"Crop Selection", "e", [⟨some "f1", "a1", some 2, some 1,
              some 0.8⟩]⟩]
            [⟨"Market Opportunities", "e", [⟨some "f2", "a2", none, some 2,
              some 0.8⟩]⟩]
            [⟨"Water Management", "e", [⟨some "f3", "a3", some 2, none,
              some 0.9⟩]⟩] 5).high_priority_actions =
          ((List.insertionSort rankRel
              (withIdx (scoredItems
                [⟨"Crop Selection", "e", [⟨some "f1", "a1", some 2, some 1,
                  some 0.8⟩]⟩]
                [⟨"Market Opportunities", "e", [⟨some "f2", "a2", none,
                  some 2, some 0.8⟩]⟩]
                [⟨"Water Management", "e", [⟨some "f3", "a3", some 2, none,
                  some 0.9⟩]⟩] 5) 0)).take 5).map Prod.fst ∧
        List.Sorted rankRel
          (List.insertionSort rankRel
            (withIdx (scoredItems
              [⟨"Crop Selection", "e", [⟨some "f1", "a1", some 2, some 1,
                some 0.8⟩]⟩]
              [⟨"Market Opportunities", "e", [⟨some "f2", "a2", none,
                some 2, some 0.8⟩]⟩]
              [⟨"Water Management", "e", [⟨some "f3", "a3", some 2, none,
                some 0.9⟩]⟩] 5) 0)) ∧
        List.Perm
          (List.insertionSort rankRel
            (withIdx (scoredItems
              [⟨"Crop Selection", "e", [⟨some "f1", "a1", some 2, some 1,
                some 0.8⟩]⟩]
              [⟨"Market Opportunities", "e", [⟨some "f2", "a2", none,
                some 2, some 0.8⟩]⟩]
              [⟨"Water Management", "e", [⟨some "f3", "a3", some 2, none,
                some 0.9⟩]⟩] 5) 0))
          (withIdx (scoredItems
            [⟨"Crop Selection", "e", [⟨some "f1", "a1", some 2, some 1,
              some 0.8⟩]⟩]
            [⟨"Market Opportunities", "e", [⟨some "f2", "a2", none, some 2,
              some 0.8⟩]⟩]
            [⟨"Water Management", "e", [⟨some "f3", "a3", some 2, none,
              some 0.9⟩]⟩] 5) 0)) :=
  ⟨⟨by norm_num, by norm_num⟩,
    synthesis_scoring_and_stable_top5 _ _ _ 45 5 (by norm_num) (by norm_num)⟩

/-- Under the nonnegativity of every emitted sustainability impact, all
scored items carry a nonnegative sustainability impact. -/
theorem scoredItems_sustainability_nonneg
    (farming market weather : List RecGroup) (pref : ℚ)
    (hnn : ∀ g ∈ farming ++ market ++ weather,
      ∀ rec ∈ g.recommendations, 0 ≤ rec.sustainability_impact.getD 0) :
    ∀ r ∈ scoredItems farming market weather pref,
      0 ≤ r.sustainability_impact := by
  intro r hr
  unfold scoredItems at hr
  rw [List.mem_append, List.mem_append] at hr
  rcases hr with (hr | hr) | hr <;>
    · unfold extractRecs at hr
      rw [List.mem_flatMap] at hr
      obtain ⟨g, hgmem, hg⟩ := hr
      rw [List.mem_map] at hg
      obtain ⟨rec, hrec, rfl⟩ := hg
      refine hnn g ?_ rec hrec
      simp only [List.mem_append]
      tauto

/-- C5: for a parcel whose sustainability score lies in [0, 100] (and
with the agents emitting, as they do, only nonnegative or absent
sustainability impacts), the synthesis summary satisfies
potentialImprovement = 0.2 * sum of the top-5 sustainability impacts,
potentialScore = min(100, currentScore + potentialImprovement) and lies
in [currentScore, 100], and improvementPercentage is
potentialImprovement / currentScore * 100, except 0 when currentScore
is 0. -/
theorem sustainability_summary_formulas_and_bounds
    (farming market weather : List RecGroup) (currentScore pref : ℚ)
    (hc0 : 0 ≤ currentScore) (hc1 : currentScore ≤ 100)
    (hnn : ∀ g ∈ farming ++ market ++ weather,
      ∀ rec ∈ g.recommendations, 0 ≤ rec.sustainability_impact.getD 0) :
    (generateFarmRecommendations currentScore farming market weather
          pref).sustainability_summary.potential_score =
        min 100 (currentScore +
          ((generateFarmRecommendations currentScore farming market weather
              pref).high_priority_actions.map
            (·.sustainability_impact)).sum * 0.2) ∧
      currentScore ≤
        (generateFarmRecommendations currentScore farming market weather
          pref).sustainability_summary.potential_score ∧
      (generateFarmRecommendations currentScore farming market weather
          pref).sustainability_summary.potential_score ≤ 100 ∧
      (generateFarmRecommendations currentScore farming market weather
          pref).sustainability_summary.improvement_percentage =
        (if 0 < currentScore then
          ((generateFarmRecommendations currentScore farming market weather
              pref).high_priority_actions.map
            (·.sustainability_impact)).sum * 0.2 / currentScore * 100
        else 0) := by
  have himp : 0 ≤
      ((generateFarmRecommendations currentScore farming market weather
          pref).high_priority_actions.map (·.sustainability_impact)).sum *
        (0.2 : ℚ) := by
    refine mul_nonneg (List.sum_nonneg ?_) (by norm_num)
    intro x hx
    rw [List.mem_map] at hx
    obtain ⟨r, hr, rfl⟩ := hx
    have hr2 : r ∈ List.insertionSort scoreDescRel
        (scoredItems farming market weather pref) :=
      List.mem_of_mem_take hr
    have hr3 : r ∈ scoredItems farming market weather pref :=
      (List.perm_insertionSort scoreDescRel _).mem_iff.mp hr2
    exact scoredItems_sustainability_nonneg farming market weather pref hnn
      r hr3
  refine ⟨rfl, ?_, ?_, ?_⟩
  · exact le_min hc1 (le_add_of_nonneg_right himp)
  · exact min_le_left _ _
  · by_cases hc : 0 < currentScore
    · rw [if_pos hc]
      show (if currentScore > 0 then _ else _) = _
      rw [if_pos hc]
      rfl
    · rw [if_neg hc]
      show (if currentScore > 0 then _ else _) = _
      rw [if_neg hc]

/-- Witness for C5 at a concrete parcel score of 45 and a concrete
emission set. -/
theorem sustainability_summary_formulas_and_bounds_witness :
    ((0 : ℚ) ≤ 45 ∧ (45 : ℚ) ≤ 100 ∧
      (∀ g ∈ ([⟨"Crop Selection", "e", [⟨some "f1", "a1", some 2, some 1,
            some 0.8⟩]⟩] : List RecGroup) ++
          [⟨"Market Opportunities", "e", [⟨some "f2", "a2", none, some 2,
            some 0.8⟩]⟩] ++
          [⟨"Water Management", "e", [⟨some "f3", "a3", some 2, none,
            some 0.9⟩]⟩],
        ∀ rec ∈ g.recommendations, 0 ≤ rec.sustainability_impact.getD 0)) ∧
      ((generateFarmRecommendations 45
            [⟨"Crop Selection", "e", [⟨some "f1", "a1", some 2, some 1,
              some 0.8⟩]⟩]
            [⟨"Market Opportunities", "e", [⟨some "f2", "a2", none, some 2,
              some 0.8⟩]⟩]
            [⟨"Water Management", "e", [⟨some "f3", "a3", some 2, none,
              some 0.9⟩]⟩]
            5).sustainability_summary.potential_score =
          min 100 (45 +
            ((generateFarmRecommendations 45
                [⟨"Crop Selection", "e", [⟨some "f1", "a1", some 2, some 1,
                  some 0.8⟩]⟩]
                [⟨"Market Opportunities", "e", [⟨some "f2", "a2", none,
                  some 2, some 0.8⟩]⟩]
                [⟨"Water Management", "e", [⟨some "f3", "a3", some 2, none,
                  some 0.9⟩]⟩]
                5).high_priority_actions.map
              (·.sustainability_impact)).sum * 0.2) ∧
        (45 : ℚ) ≤
          (generateFarmRecommendations 45
            [⟨"Crop Selection", "e", [⟨some "f1", "a1", some 2, some 1,
              some 0.8⟩]⟩]
            [⟨"Market Opportunities", "e", [⟨some "f2", "a2", none, some 2,
              some 0.8⟩]⟩]
            [⟨"Water Management", "e", [⟨some "f3", "a3", some 2, none,
              some 0.9⟩]⟩]
            5).sustainability_summary.potential_score ∧
        (generateFarmRecommendations 45
            [⟨"Crop Selection", "e", [⟨some "f1", "a1", some 2, some 1,
              some 0.8⟩]⟩]
            [⟨"Market Opportunities", "e", [⟨some "f2", "a2", none, some 2,
              some 0.8⟩]⟩]
            [⟨"Water Management", "e", [⟨some "f3", "a3", some 2, none,
              some 0.9⟩]⟩]
            5).sustainability_summary.potential_score ≤ 100 ∧
        (generateFarmRecommendations 45
            [⟨"Crop Selection", "e", [⟨some "f1", "a1", some 2, some 1,
              some 0.8⟩]⟩]
            [⟨"Market Opportunities", "e", [⟨some "f2", "a2", none, some 2,
              some 0.8⟩]⟩]
            [⟨"Water Management", "e", [⟨some "f3", "a3", some 2, none,
              some 0.9⟩]⟩]
            5).sustainability_summary.improvement_percentage =
          (if (0 : ℚ) < 45 then
            ((generateFarmRecommendations 45
                [⟨"Crop Selection", "e", [⟨some "f1", "a1", some 2, some 1,
                  some 0.8⟩]⟩]
                [⟨"Market Opportunities", "e", [⟨some "f2", "a2", none,
                  some 2, some 0.8⟩]⟩]
                [⟨"Water Management", "e", [⟨some "f3", "a3", some 2, none,
                  some 0.9⟩]⟩]
                5).high_priority_actions.map
              (·.sustainability_impact)).sum * 0.2 / 45 * 100
          else 0)) :=
  ⟨⟨by norm_num, by norm_num,
      by intro g hg rec hrec; fin_cases hg <;> fin_cases hrec <;> norm_num⟩,
    sustainability_summary_formulas_and_bounds _ _ _ 45 5 (by norm_num)
      (by norm_num)
      (by intro g hg rec hrec; fin_cases hg <;> fin_cases hrec <;> norm_num)⟩

set_option maxHeartbeats 1600000 in
/-- One forecast day is a function of the six draws it can read: if two
streams agree below `N` and the day starts within the window, the sample,
both updated trends and the advanced cursor coincide, and the cursor
advances by at most six draws. -/
theorem forecastDay_congr (p : RegionParams) (monthOf : ℤ → ℕ) (today : ℤ)
    (day : ℕ) (tempTrend rainTrend : ℚ) (s1 s2 : ℕ → ℚ) (i N : ℕ)
    (hiN : i + 6 ≤ N) (h : ∀ k, k < N → s1 k = s2 k) :
    (forecastDay p monthOf today day tempTrend rainTrend ⟨s1, i⟩).1 =
        (forecastDay p monthOf today day tempTrend rainTrend ⟨s2, i⟩).1 ∧
      (forecastDay p monthOf today day tempTrend rainTrend ⟨s1, i⟩).2.1 =
        (forecastDay p monthOf today day tempTrend rainTrend ⟨s2, i⟩).2.1 ∧
      (forecastDay p monthOf today day tempTrend rainTrend ⟨s1, i⟩).2.2.1 =
        (forecastDay p monthOf today day tempTrend rainTrend ⟨s2, i⟩).2.2.1 ∧
      (forecastDay p monthOf today day tempTrend rainTrend
          ⟨s1, i⟩).2.2.2.idx =
        (forecastDay p monthOf today day tempTrend rainTrend
          ⟨s2, i⟩).2.2.2.idx ∧
      i ≤ (forecastDay p monthOf today day tempTrend rainTrend
          ⟨s1, i⟩).2.2.2.idx ∧
      (forecastDay p monthOf today day tempTrend rainTrend
          ⟨s1, i⟩).2.2.2.idx ≤ i + 6 := by
  have h0 : s1 i = s2 i := h i (by omega)
  have h1 : s1 (i + 1) = s2 (i + 1) := h (i + 1) (by omega)
  have h2 : s1 (i + 2) = s2 (i + 2) := h (i + 2) (by omega)
  have h3 : s1 (i + 3) = s2 (i + 3) := h (i + 3) (by omega)
  have h4 : s1 (i + 4) = s2 (i + 4) := h (i + 4) (by omega)
  have h5 : s1 (i + 5) = s2 (i + 5) := h (i + 5) (by omega)
  have h4' : s1 (i + 5 - 1) = s2 (i + 5 - 1) := h4
  have h5' : s1 (i + 6 - 1) = s2 (i + 6 - 1) := h5
  refine ⟨?_, ?_, ?_, ?_, ?_, ?_⟩
  · simp only [forecastDay]
    simp only [h0, h1, h2, h3, h4]
    split_ifs <;> dsimp only <;> first | rw [h4'] | rw [h5'] | rfl
  · simp only [forecastDay]
    rw [h0]
  · simp only [forecastDay]
    rw [h2]
  · simp only [forecastDay]
    simp only [h3, h4]
    split_ifs <;> rfl
  · simp only [forecastDay]
    split_ifs <;> dsimp only <;> omega
  · simp only [forecastDay]
    split_ifs <;> dsimp only <;> omega

/-- The forecast loop over `n` days is a function of the at most `6 * n`
draws it can read: agreeing streams yield identical sample lists and
identical final cursors, and the cursor stays within the window. -/
theorem forecastLoop_congr (p : RegionParams) (monthOf : ℤ → ℕ)
    (today : ℤ) (s1 s2 : ℕ → ℚ) (N : ℕ) (h : ∀ k, k < N → s1 k = s2 k) :
    ∀ (n day : ℕ) (tempTrend rainTrend : ℚ) (i : ℕ), i + 6 * n ≤ N →
      (forecastLoop p monthOf today n day tempTrend rainTrend ⟨s1, i⟩).1 =
          (forecastLoop p monthOf today n day tempTrend rainTrend ⟨s2, i⟩).1 ∧
        (forecastLoop p monthOf today n day tempTrend rainTrend
            ⟨s1, i⟩).2.idx =
          (forecastLoop p monthOf today n day tempTrend rainTrend
            ⟨s2, i⟩).2.idx ∧
        (forecastLoop p monthOf today n day tempTrend rainTrend
            ⟨s1, i⟩).2.idx ≤ i + 6 * n := by
  intro n
  induction n with
  | zero =>
    intro day tempTrend rainTrend i hle
    refine ⟨rfl, rfl, ?_⟩
    show i ≤ i + 6 * 0
    omega
  | succ m ih =>
    intro day tempTrend rainTrend i hle
    obtain ⟨hsmp, htt, hrt, hidx, hge, hle6⟩ :=
      forecastDay_congr p monthOf today day tempTrend rainTrend s1 s2 i N
        (by omega) h
    obtain ⟨ih1, ih2, ih3⟩ := ih (day + 1)
      ((forecastDay p monthOf today day tempTrend rainTrend ⟨s1, i⟩).2.1)
      ((forecastDay p monthOf today day tempTrend rainTrend ⟨s1, i⟩).2.2.1)
      ((forecastDay p monthOf today day tempTrend rainTrend ⟨s1, i⟩).2.2.2.idx)
      (by omega)
    refine ⟨?_, ?_, ?_⟩
    · show (forecastDay p monthOf today day tempTrend rainTrend ⟨s1, i⟩).1 ::
          (forecastLoop p monthOf today m (day + 1) _ _ _).1 = _
      rw [hsmp]
      congr 1
      calc (forecastLoop p monthOf today m (day + 1)
              ((forecastDay p monthOf today day tempTrend rainTrend ⟨s1, i⟩).2.1)
              ((forecastDay p monthOf today day tempTrend rainTrend ⟨s1, i⟩).2.2.1)
              ((forecastDay p monthOf today day tempTrend rainTrend ⟨s1, i⟩).2.2.2)).1
          = (forecastLoop p monthOf today m (day + 1)
              ((forecastDay p monthOf today day tempTrend rainTrend ⟨s1, i⟩).2.1)
              ((forecastDay p monthOf today day tempTrend rainTrend ⟨s1, i⟩).2.2.1)
              ⟨s2, (forecastDay p monthOf today day tempTrend rainTrend
                ⟨s1, i⟩).2.2.2.idx⟩).1 := ih1
        _ = (forecastLoop p monthOf today m (day + 1)
              ((forecastDay p monthOf today day tempTrend rainTrend ⟨s2, i⟩).2.1)
              ((forecastDay p monthOf today day tempTrend rainTrend ⟨s2, i⟩).2.2.1)
              ((forecastDay p monthOf today day tempTrend rainTrend ⟨s2, i⟩).2.2.2)).1 := by
            rw [htt, hrt, hidx]
            rfl
    · show (forecastLoop p monthOf today m (day + 1) _ _ _).2.idx = _
      calc (forecastLoop p monthOf today m (day + 1)
              ((forecastDay p monthOf today day tempTrend rainTrend ⟨s1, i⟩).2.1)
              ((forecastDay p monthOf today day tempTrend rainTrend ⟨s1, i⟩).2.2.1)
              ((forecastDay p monthOf today day tempTrend rainTrend ⟨s1, i⟩).2.2.2)).2.idx
          = (forecastLoop p monthOf today m (day + 1)
              ((forecastDay p monthOf today day tempTrend rainTrend ⟨s1, i⟩).2.1)
              ((forecastDay p monthOf today day tempTrend rainTrend ⟨s1, i⟩).2.2.1)
              ⟨s2, (forecastDay p monthOf today day tempTrend rainTrend
                ⟨s1, i⟩).2.2.2.idx⟩).2.idx := ih2
        _ = (forecastLoop p monthOf today m (day + 1)
              ((forecastDay p monthOf today day tempTrend rainTrend ⟨s2, i⟩).2.1)
              ((forecastDay p monthOf today day tempTrend rainTrend ⟨s2, i⟩).2.2.1)
              ((forecastDay p monthOf today day tempTrend rainTrend ⟨s2, i⟩).2.2.2)).2.idx := by
            rw [htt, hrt, hidx]
            rfl
    · calc (forecastLoop p monthOf today (m + 1) day tempTrend rainTrend
              ⟨s1, i⟩).2.idx
          = (forecastLoop p monthOf today m (day + 1)
              ((forecastDay p monthOf today day tempTrend rainTrend ⟨s1, i⟩).2.1)
              ((forecastDay p monthOf today day tempTrend rainTrend ⟨s1, i⟩).2.2.1)
              ⟨s1, (forecastDay p monthOf today day tempTrend rainTrend
                ⟨s1, i⟩).2.2.2.idx⟩).2.idx := rfl
        _ ≤ (forecastDay p monthOf today day tempTrend rainTrend
              ⟨s1, i⟩).2.2.2.idx + 6 * m := ih3
        _ ≤ i + 6 * (m + 1) := by omega

/-- C3: the forecast operation is a function of the seed alone.  If two
pseudo-random streams agree on the draw window of the call (at most
6 * (days + 1) draws from the starting cursor: six for the embedded
current-weather call and at most six per forecast day), then two runs
from the same cursor — the same seed with no intervening draws — return
identical sample sequences and leave the generator at the same cursor,
so the following calls also coincide. -/
theorem forecast_two_run_determinism (p : RegionParams) (monthOf : ℤ → ℕ)
    (today : ℤ) (days : ℕ) (s1 s2 : ℕ → ℚ) (i : ℕ)
    (h : ∀ k, k < i + 6 * (days + 1) → s1 k = s2 k) :
    (generateForecast p monthOf today days ⟨s1, i⟩).1 =
        (generateForecast p monthOf today days ⟨s2, i⟩).1 ∧
      (generateForecast p monthOf today days ⟨s1, i⟩).2.idx =
        (generateForecast p monthOf today days ⟨s2, i⟩).2.idx := by
  obtain ⟨h1, h2, _⟩ := forecastLoop_congr p monthOf today s1 s2
    (i + 6 * (days + 1)) h days 1 0 0 (i + 6) (by omega)
  exact ⟨h1, h2⟩

/-- A fixed stream of draws, one half everywhere. -/
def detStreamA : ℕ → ℚ := fun _ => 0.5

/-- A stream agreeing with `detStreamA` on the first 18 draws only. -/
def detStreamB : ℕ → ℚ := fun n => if n < 18 then 0.5 else 1

/-- Witness for C3: a two-day forecast for the south region under two
streams that agree only on the call's draw window. -/
theorem forecast_two_run_determinism_witness :
    (∀ k, k < 0 + 6 * (2 + 1) → detStreamA k = detStreamB k) ∧
      ((generateForecast (regionParams .south) (fun _ => 7) 10 2
            ⟨detStreamA, 0⟩).1 =
          (generateForecast (regionParams .south) (fun _ => 7) 10 2
            ⟨detStreamB, 0⟩).1 ∧
        (generateForecast (regionParams .south) (fun _ => 7) 10 2
            ⟨detStreamA, 0⟩).2.idx =
          (generateForecast (regionParams .south) (fun _ => 7) 10 2
            ⟨detStreamB, 0⟩).2.idx) :=
  ⟨fun k hk => by simp [detStreamA, detStreamB, hk],
    forecast_two_run_determinism (regionParams .south) (fun _ => 7) 10 2
      detStreamA detStreamB 0
      (fun k hk => by simp [detStreamA, detStreamB, hk])⟩

/-- Witness for C8 at demand values 1 and 2 with supply 1, and
non-positive supply 0. -/
theorem market_status_monotone_in_demand_witness :
    ((0 : ℚ) < 1 ∧ (1 : ℚ) ≤ 2 ∧ (0 : ℚ) ≤ 0) ∧
      (statusRank (determineMarketStatus 1 1) ≤
          statusRank (determineMarketStatus 2 1) ∧
        (determineMarketStatus 1 1 = "undersupplied" ↔
          1.2 < (1 : ℚ) / 1) ∧
        (determineMarketStatus 1 1 = "oversupplied" ↔ (1 : ℚ) / 1 < 0.8) ∧
        (determineMarketStatus 1 1 = "balanced" ↔
          0.8 ≤ (1 : ℚ) / 1 ∧ (1 : ℚ) / 1 ≤ 1.2) ∧
        determineMarketStatus 1 0 = "undersupplied") :=
  ⟨⟨by norm_num, by norm_num, le_refl 0⟩,
    market_status_monotone_in_demand 1 2 1 0 (by norm_num) (by norm_num)
      (le_refl 0)⟩
